import Mathlib

/-!
Shallow embedding of `PuppeteerRealBrowserClient` (src/src/index.ts) and proofs
about its retry, page-lifecycle, action-classification, browser-lifecycle and
fan-out logic.  External effects (the browser engine and the base-client
primitives) are represented by outcome scripts: each browser/page operation an
attempt performs is given its result (a value or a thrown JS error) up front,
and the embedded control flow consumes those results exactly as the TypeScript
does.
-/

namespace PuppeteerRealBrowser

/-- JS `x || d` on an optional number: `undefined` and `0` are falsy. -/
def jsOrNat (x : Option Nat) (d : Nat) : Nat :=
  match x with
  | none => d
  | some n => if n = 0 then d else n

/-- JS `x || d` on an optional string: `undefined` and `""` are falsy. -/
def jsOrStr (x : Option String) (d : String) : String :=
  match x with
  | none => d
  | some s => if s = "" then d else s

/-- A thrown JS value as the catch block observes it: whether it is an
`Error` instance (`instanceof Error`), its `.message`, and its `.status`
property when that is a number (`none` models an absent/undefined property). -/
structure ThrownError where
  isError : Bool
  message : String
  status : Option Nat
deriving DecidableEq, Repr

/-- The navigation response surface the code reads: `status()`, `headers()`,
`statusText()`.  `status` is optional to model an undefined status. -/
structure NavResponse where
  status : Option Nat
  headers : List (String × String)
  statusText : String
deriving DecidableEq, Repr

/-- `FaliedAttempt` record from `@xcrap/core` as used by the code:
`{ error: errorMessage, timestamp: new Date() }`.  Timestamps are modelled by
the attempt counter at which the failure was recorded. -/
structure FaliedAttempt where
  error : String
  timestamp : Nat
deriving DecidableEq, Repr

/-- `HttpResponse` fields as constructed by `fetch`. -/
structure HttpResponse where
  body : String
  headers : List (String × String)
  status : Nat
  statusText : String
  attempts : Nat
  failedAttempts : List FaliedAttempt
deriving DecidableEq, Repr

/-! ## Action classifier (`extractActions`) -/

/-- Action functions are opaque (never invoked by `extractActions`); model
them by identifiers. -/
abbrev ActionFunc : Type := Nat

/-- `PuppeteerRealBrowserClientAction`: either a bare callable or a record
`{ type, exec }`.  The tag is a runtime string: TypeScript's literal type is
not enforced at runtime, and the code compares the tag against the exact
string "beforeRequest". -/
inductive ClientAction where
  | func (f : ActionFunc)
  | tagged (type : String) (exec : ActionFunc)
deriving DecidableEq, Repr

/-- Modelled from the spec: `defaultPuppeteerActionType` lives in
`src/constants.ts`, which is not part of the provided sources; per the spec a
bare callable defaults to the "after" bucket, so the default tag is
"afterRequest". -/
def defaultPuppeteerActionType : String := "afterRequest"

/-- Result of `extractActions`. -/
structure ExtractActionsResult where
  before : List ActionFunc
  after : List ActionFunc
deriving DecidableEq, Repr

/-- The tag the loop computes for one action
(`typeof action === "function" ? defaultPuppeteerActionType : action.type`). -/
def actionTypeOf (a : ClientAction) : String :=
  match a with
  | .func _ => defaultPuppeteerActionType
  | .tagged t _ => t

/-- The callable the loop extracts
(`typeof action === "function" ? action : action.exec`). -/
def actionFuncOf (a : ClientAction) : ActionFunc :=
  match a with
  | .func f => f
  | .tagged _ f => f

/-- `extractActions`: replace an absent list by `[]`, then push each action's
callable onto the before-bucket when its tag equals "beforeRequest" and onto
the after-bucket otherwise. -/
def extractActions (actions : Option (List ClientAction)) : ExtractActionsResult :=
  let acts := actions.getD []
  acts.foldl
    (fun acc action =>
      if actionTypeOf action = "beforeRequest" then
        { acc with before := acc.before ++ [actionFuncOf action] }
      else
        { acc with after := acc.after ++ [actionFuncOf action] })
    { before := [], after := [] }

/-! ## One attempt (`fetch`'s try block) -/

/-- Outcomes of the external operations one attempt performs, in program
order: `browser.newPage()`, `configurePage`, the before-actions,
`page.goto`, the after-actions, `page.content()`, and the unguarded
`page.close()` of the try block.  An `Except.error` entry means that
operation throws when reached. -/
structure AttemptScript where
  newPage : Except ThrownError Unit
  configure : Except ThrownError Unit
  beforeActs : Except ThrownError Unit
  goto : Except ThrownError (Option NavResponse)
  afterActs : Except ThrownError Unit
  content : Except ThrownError String
  closeStep : Except ThrownError Unit

/-- Page-lifecycle facts observable from one run of the try block:
whether `newPage` completed (so the `page` variable is set) and whether the
try block's `page.close()` was reached. -/
structure TryTrace where
  pageCreated : Bool
  tryCloseCalled : Bool
deriving DecidableEq, Repr

/-- Modelled from the spec: `InvalidStatusCodeError` comes from `@xcrap/core`;
per the spec it is an `Error` carrying the observed (or default 500) status. -/
def InvalidStatusCodeError (s : Nat) : ThrownError :=
  ⟨true, "Invalid status code: " ++ toString s, some s⟩

/-- The status classification at the end of the try block:
`const status = response?.status(); if (status === undefined ||
!this.isSuccess(status)) throw new InvalidStatusCodeError(status ?? 500)`,
else fall through to the success return. -/
def classify (isSuccess : Nat → Bool) (content : String)
    (response : Option NavResponse) :
    Except ThrownError (String × Option NavResponse) :=
  match response.bind NavResponse.status with
  | none => .error (InvalidStatusCodeError 500)
  | some st =>
    if isSuccess st then .ok (content, response)
    else .error (InvalidStatusCodeError st)

/-- The try block of `attemptRequest`: run the scripted operations in program
order, stopping at the first thrown error; after the close, classify the
status.  Returns the values the success return statement reads (`content` and
`response`) plus the trace. -/
def runTry (isSuccess : Nat → Bool) (s : AttemptScript) :
    Except ThrownError (String × Option NavResponse) × TryTrace :=
  match s.newPage with
  | .error e => (.error e, ⟨false, false⟩)
  | .ok _ =>
  match s.configure with
  | .error e => (.error e, ⟨true, false⟩)
  | .ok _ =>
  match s.beforeActs with
  | .error e => (.error e, ⟨true, false⟩)
  | .ok _ =>
  match s.goto with
  | .error e => (.error e, ⟨true, false⟩)
  | .ok response =>
  match s.afterActs with
  | .error e => (.error e, ⟨true, false⟩)
  | .ok _ =>
  match s.content with
  | .error e => (.error e, ⟨true, false⟩)
  | .ok content =>
  match s.closeStep with
  | .error e => (.error e, ⟨true, true⟩)
  | .ok _ => (classify isSuccess content response, ⟨true, true⟩)

/-- `error instanceof Error ? error.message : "Unknown error"`. -/
def errMsg (e : ThrownError) : String :=
  if e.isError then e.message else "Unknown error"

/-- Whether a close was attempted on the page before the attempt returned:
the try block's close, or the catch block's swallowed
`page.close().catch(() => {})`, which runs whenever `page` is set. -/
def attemptCloseAttempted (isSuccess : Nat → Bool) (s : AttemptScript) : Bool :=
  match runTry isSuccess s with
  | (.ok _, tr) => tr.tryCloseCalled
  | (.error _, tr) => tr.tryCloseCalled || tr.pageCreated

/-- The recursive `attemptRequest` closure: run the try block for the attempt
numbered `currentRetry`; on success build the success `HttpResponse`; on a
caught error append a failed-attempt record, retry while
`currentRetry < maxRetries`, and otherwise build the failure `HttpResponse`.
The optional retry delay has no effect on any modelled state and is elided. -/
def attemptRequest (isSuccess : Nat → Bool) (scripts : Nat → AttemptScript)
    (maxRetries : Nat) (currentRetry : Nat) (failedAttempts : List FaliedAttempt) :
    HttpResponse :=
  match (runTry isSuccess (scripts currentRetry)).1 with
  | .ok (content, response) =>
      { body := content
        headers := (response.map NavResponse.headers).getD []
        status := jsOrNat (response.bind NavResponse.status) 200
        statusText := jsOrStr (response.map NavResponse.statusText) "Ok"
        attempts := currentRetry + 1
        failedAttempts := failedAttempts }
  | .error e =>
      let errorMessage := errMsg e
      let failedAttempts := failedAttempts ++ [⟨errorMessage, currentRetry⟩]
      if currentRetry < maxRetries then
        attemptRequest isSuccess scripts maxRetries (currentRetry + 1) failedAttempts
      else
        { body := errorMessage
          headers := []
          status := jsOrNat e.status 500
          statusText := "Request Failed"
          attempts := currentRetry + 1
          failedAttempts := failedAttempts }
termination_by maxRetries + 1 - currentRetry
decreasing_by omega

/-- The inputs `fetch` consumes from its environment: the outcome of
`ensureBrowser()` (browser startup) and the per-attempt scripts, plus the base
client's success predicate. -/
structure FetchEnv where
  ensureBrowser : Except ThrownError Unit
  scripts : Nat → AttemptScript
  isSuccess : Nat → Bool

/-- `fetch`: `await this.ensureBrowser()` runs before (and outside) the
try/catch of `attemptRequest`, so its failure propagates; otherwise the
result is `attemptRequest(retries)` with an empty failed-attempts list. -/
def fetchModel (env : FetchEnv) (maxRetries : Nat) (retries : Nat) :
    Except ThrownError HttpResponse :=
  match env.ensureBrowser with
  | .error e => .error e
  | .ok _ => .ok (attemptRequest env.isSuccess env.scripts maxRetries retries [])

/-- The failed-attempt record produced when attempt `k` fails
(`{ error: errorMessage, timestamp }`); unspecified when attempt `k`
succeeds. -/
def attemptFailRecord (isSuccess : Nat → Bool) (scripts : Nat → AttemptScript)
    (k : Nat) : FaliedAttempt :=
  match (runTry isSuccess (scripts k)).1 with
  | .error e => ⟨errMsg e, k⟩
  | .ok _ => ⟨"", k⟩

/-- Whether the try block of an attempt ends in a thrown error. -/
def tryFails (isSuccess : Nat → Bool) (s : AttemptScript) : Bool :=
  match (runTry isSuccess s).1 with
  | .error _ => true
  | .ok _ => false

/-- The error a failing attempt throws; unspecified on success. -/
def tryErrorOf (isSuccess : Nat → Bool) (s : AttemptScript) : ThrownError :=
  match (runTry isSuccess s).1 with
  | .error e => e
  | .ok _ => ⟨false, "", none⟩

/-! ## Browser lifecycle state machine -/

/-- Client state relevant to the browser lifecycle: the stored handle
(`this.browser`), a fresh-handle supply, and counters of engine starts
(`connect` calls) and engine shutdowns (`browser.close()` calls). -/
structure ClientState where
  browser : Option Nat
  nextHandle : Nat
  connects : Nat
  engineCloses : Nat
deriving DecidableEq, Repr

/-- The operations that touch the stored handle. `fetchOp` covers `fetch`,
whose only handle mutation is its initial `ensureBrowser()` call. -/
inductive ClientOp where
  | ensure
  | closeBrowserOp
  | closeOp
  | fetchOp
deriving DecidableEq, Repr

/-- `initBrowser`: start the engine (`connect`) and store the handle. -/
def initBrowser (s : ClientState) : ClientState :=
  { browser := some s.nextHandle
    nextHandle := s.nextHandle + 1
    connects := s.connects + 1
    engineCloses := s.engineCloses }

/-- `ensureBrowser`: `if (!this.browser) await this.initBrowser()`. -/
def ensureBrowserStep (s : ClientState) : ClientState :=
  if s.browser.isSome then s else initBrowser s

/-- `closeBrowser`: `if (this.browser) { await this.browser.close();
this.browser = undefined }`. -/
def closeBrowserStep (s : ClientState) : ClientState :=
  if s.browser.isSome then
    { s with browser := none, engineCloses := s.engineCloses + 1 }
  else s

/-- Public `close`: `if (this.browser) await this.closeBrowser()`. -/
def closeStep (s : ClientState) : ClientState :=
  if s.browser.isSome then closeBrowserStep s else s

/-- One client operation as a state transition. -/
def stepOp (op : ClientOp) (s : ClientState) : ClientState :=
  match op with
  | .ensure => ensureBrowserStep s
  | .closeBrowserOp => closeBrowserStep s
  | .closeOp => closeStep s
  | .fetchOp => ensureBrowserStep s

/-! ## Fan-out (`fetchMany`) -/

/-- `fetchMany`'s result collection: each dispatched task `i` eventually
writes the fetch result for `requests[i]` into slot `i` of the shared results
sequence; `order` is the order in which the in-flight tasks complete ( an
arbitrary interleaving), and the call returns only after `Promise.all`, i.e.
after every task in `order` has run.  Unfilled slots stay `none`. -/
def fmStep {α : Type} (requests : List α) (f : α → HttpResponse)
    (res : List (Option HttpResponse)) (i : Nat) : List (Option HttpResponse) :=
  res.set i ((requests.get? i).map f)

/-- The completed run: every task in `order` has written its slot. -/
def fetchManyModel {α : Type} (requests : List α) (f : α → HttpResponse)
    (order : List Nat) : List (Option HttpResponse) :=
  order.foldl (fmStep requests f) (List.replicate requests.length none)

/-! ## Concrete fixtures used by witnesses and counterexamples -/

/-- A 200-OK navigation response. -/
def okNav : NavResponse := ⟨some 200, [("content-type", "text/html")], "OK"⟩

/-- An attempt in which every operation succeeds and navigation returns 200. -/
def okScript : AttemptScript :=
  ⟨.ok (), .ok (), .ok (), .ok (some okNav), .ok (), .ok "body", .ok ()⟩

/-- A navigation error thrown by `page.goto`. -/
def navErr : ThrownError := ⟨true, "nav failed", none⟩

/-- An attempt whose `goto` throws. -/
def failScript : AttemptScript := { okScript with goto := .error navErr }

/-- The usual 2xx success predicate for concrete runs. -/
def is2xx : Nat → Bool := fun s => 200 ≤ s && s < 300

/-- An error thrown by the try block's `page.close()`. -/
def closeErr : ThrownError := ⟨true, "close failed", none⟩

/-- An attempt that succeeds through reading the content but whose try-block
`page.close()` throws. -/
def closeFailScript : AttemptScript := { okScript with closeStep := .error closeErr }

/-- An attempt whose navigation returns a response with an undefined status. -/
def undefStatusScript : AttemptScript := { okScript with goto := .ok (some ⟨none, [], "X"⟩) }

/-- An error carrying the (falsy) status 0. -/
def zeroStatusErr : ThrownError := ⟨true, "boom", some 0⟩

/-- An attempt whose before-actions throw an error carrying status 0. -/
def zeroStatusScript : AttemptScript := { okScript with beforeActs := .error zeroStatusErr }

/-- A browser-startup (`connect`) failure. -/
def connectErr : ThrownError := ⟨true, "connect failed", none⟩

/-- An environment whose `ensureBrowser` throws; every attempt would succeed. -/
def badStartEnv : FetchEnv := ⟨.error connectErr, fun _ => okScript, is2xx⟩

/-- An environment whose browser starts fine and whose only attempt fails at
the try block's `page.close()`. -/
def closeFailEnv : FetchEnv := ⟨.ok (), fun _ => closeFailScript, is2xx⟩

/-- An environment whose single attempt fails with an error carrying
status 0. -/
def zeroStatusEnv : FetchEnv := ⟨.ok (), fun _ => zeroStatusScript, is2xx⟩

/-- An environment whose navigation yields an undefined status on every
attempt. -/
def undefStatusEnv : FetchEnv := ⟨.ok (), fun _ => undefStatusScript, is2xx⟩

/-- Scenario environment: attempts 0 and 1 throw a navigation error, attempt 2
succeeds with status 200. -/
def thirdTimeEnv : FetchEnv :=
  ⟨.ok (), fun k => if k < 2 then failScript else okScript, is2xx⟩

/-- A canned response used in concrete `fetchMany` runs. -/
def cannedResponse (n : Nat) : HttpResponse :=
  { body := toString n, headers := [], status := 200, statusText := "Ok"
    attempts := 1, failedAttempts := [] }

/-- The response produced when the single attempt of a `maxRetries = 0` fetch
fails at the try block's `page.close()`. -/
def closeFailResp : HttpResponse :=
  { body := "close failed", headers := [], status := 500
    statusText := "Request Failed", attempts := 1
    failedAttempts := [⟨"close failed", 0⟩] }

/-- An environment whose every attempt throws a navigation error. -/
def allFailEnv : FetchEnv := ⟨.ok (), fun _ => failScript, is2xx⟩

/-- The response of `fetch` against `allFailEnv` with `maxRetries = 1`. -/
def allFailResp : HttpResponse :=
  { body := "nav failed", headers := [], status := 500
    statusText := "Request Failed", attempts := 2
    failedAttempts := [⟨"nav failed", 0⟩, ⟨"nav failed", 1⟩] }

/-- The response of `fetch` against `thirdTimeEnv` with `maxRetries = 2`. -/
def thirdTimeResp : HttpResponse :=
  { body := "body", headers := [("content-type", "text/html")], status := 200
    statusText := "OK", attempts := 3
    failedAttempts := [⟨"nav failed", 0⟩, ⟨"nav failed", 1⟩] }

/-- The response of `fetch` against `undefStatusEnv` with `maxRetries = 0`. -/
def undefStatusResp : HttpResponse :=
  { body := "Invalid status code: 500", headers := [], status := 500
    statusText := "Request Failed", attempts := 1
    failedAttempts := [⟨"Invalid status code: 500", 0⟩] }

/-- The response of `fetch` against `zeroStatusEnv` with `maxRetries = 0`. -/
def zeroStatusResp : HttpResponse :=
  { body := "boom", headers := [], status := 500
    statusText := "Request Failed", attempts := 1
    failedAttempts := [⟨"boom", 0⟩] }

end PuppeteerRealBrowser

namespace PuppeteerRealBrowser

theorem extractActions_none : extractActions none = ⟨[], []⟩ := rfl

theorem extractActions_go (l : List ClientAction) (acc : ExtractActionsResult) :
    l.foldl
      (fun acc action =>
        if actionTypeOf action = "beforeRequest" then
          { acc with before := acc.before ++ [actionFuncOf action] }
        else
          { acc with after := acc.after ++ [actionFuncOf action] })
      acc =
    ⟨acc.before ++ (l.filter (fun a => actionTypeOf a = "beforeRequest")).map actionFuncOf,
     acc.after ++ (l.filter (fun a => ¬ (actionTypeOf a = "beforeRequest"))).map actionFuncOf⟩ := by
  induction l generalizing acc with
  | nil => simp
  | cons a l ih =>
    by_cases h : actionTypeOf a = "beforeRequest" <;>
      simp [List.foldl_cons, ih, h, List.filter_cons]

theorem extractActions_some (l : List ClientAction) :
    extractActions (some l) =
      ⟨(l.filter (fun a => actionTypeOf a = "beforeRequest")).map actionFuncOf,
       (l.filter (fun a => ¬ (actionTypeOf a = "beforeRequest"))).map actionFuncOf⟩ := by
  simpa [extractActions] using extractActions_go l ⟨[], []⟩


/-! ## Retry-engine unfolding and induction lemmas -/

theorem attemptRequest_ok (isSuccess : Nat → Bool) (scripts : Nat → AttemptScript)
    (m c : Nat) (acc : List FaliedAttempt)
    (content : String) (response : Option NavResponse)
    (h : (runTry isSuccess (scripts c)).1 = Except.ok (content, response)) :
    attemptRequest isSuccess scripts m c acc =
      { body := content
        headers := (response.map NavResponse.headers).getD []
        status := jsOrNat (response.bind NavResponse.status) 200
        statusText := jsOrStr (response.map NavResponse.statusText) "Ok"
        attempts := c + 1
        failedAttempts := acc } := by
  rw [attemptRequest, h]

theorem attemptRequest_fail_retry (isSuccess : Nat → Bool) (scripts : Nat → AttemptScript)
    (m c : Nat) (acc : List FaliedAttempt) (e : ThrownError)
    (h : (runTry isSuccess (scripts c)).1 = Except.error e) (hc : c < m) :
    attemptRequest isSuccess scripts m c acc =
      attemptRequest isSuccess scripts m (c + 1) (acc ++ [⟨errMsg e, c⟩]) := by
  rw [attemptRequest, h]
  simp [hc]

theorem attemptRequest_fail_last (isSuccess : Nat → Bool) (scripts : Nat → AttemptScript)
    (m c : Nat) (acc : List FaliedAttempt) (e : ThrownError)
    (h : (runTry isSuccess (scripts c)).1 = Except.error e) (hc : ¬ c < m) :
    attemptRequest isSuccess scripts m c acc =
      { body := errMsg e
        headers := []
        status := jsOrNat e.status 500
        statusText := "Request Failed"
        attempts := c + 1
        failedAttempts := acc ++ [⟨errMsg e, c⟩] } := by
  rw [attemptRequest, h]
  simp [hc]

theorem tryFails_error (isSuccess : Nat → Bool) (s : AttemptScript)
    (h : tryFails isSuccess s = true) :
    (runTry isSuccess s).1 = Except.error (tryErrorOf isSuccess s) := by
  cases hr : (runTry isSuccess s).1 with
  | ok v => simp [tryFails, hr] at h
  | error e => simp [tryErrorOf, hr]

theorem attemptFailRecord_eq (isSuccess : Nat → Bool) (scripts : Nat → AttemptScript)
    (c : Nat) (h : (runTry isSuccess (scripts c)).1 = Except.error (tryErrorOf isSuccess (scripts c))) :
    attemptFailRecord isSuccess scripts c =
      ⟨errMsg (tryErrorOf isSuccess (scripts c)), c⟩ := by
  unfold attemptFailRecord
  rw [h]

theorem attemptRequest_allFail (isSuccess : Nat → Bool) (scripts : Nat → AttemptScript)
    (m : Nat) :
    ∀ (n c : Nat) (acc : List FaliedAttempt), c + n = m →
    (∀ k, c ≤ k → k ≤ m → tryFails isSuccess (scripts k) = true) →
    attemptRequest isSuccess scripts m c acc =
      { body := errMsg (tryErrorOf isSuccess (scripts m))
        headers := []
        status := jsOrNat (tryErrorOf isSuccess (scripts m)).status 500
        statusText := "Request Failed"
        attempts := m + 1
        failedAttempts := acc ++ (List.range' c (n + 1)).map (attemptFailRecord isSuccess scripts) } := by
  intro n
  induction n with
  | zero =>
    intro c acc hcn hf
    have hc : c = m := by omega
    subst hc
    have he := tryFails_error isSuccess (scripts c) (hf c le_rfl le_rfl)
    rw [attemptRequest_fail_last isSuccess scripts c c acc _ he (by omega)]
    simp [List.range'_succ, attemptFailRecord_eq isSuccess scripts c he]
  | succ n ih =>
    intro c acc hcn hf
    have hc : c < m := by omega
    have he := tryFails_error isSuccess (scripts c) (hf c le_rfl (by omega))
    rw [attemptRequest_fail_retry isSuccess scripts m c acc _ he hc]
    rw [ih (c + 1)
      (acc ++ [(⟨errMsg (tryErrorOf isSuccess (scripts c)), c⟩ : FaliedAttempt)]) (by omega)
      (fun k hk1 hk2 => hf k (by omega) hk2)]
    simp [List.range'_succ, attemptFailRecord_eq isSuccess scripts c he]

theorem attemptRequest_succeedsAfter (isSuccess : Nat → Bool) (scripts : Nat → AttemptScript)
    (m : Nat) :
    ∀ (j c : Nat) (acc : List FaliedAttempt) (content : String) (response : Option NavResponse),
    c + j ≤ m →
    (∀ k, c ≤ k → k < c + j → tryFails isSuccess (scripts k) = true) →
    (runTry isSuccess (scripts (c + j))).1 = Except.ok (content, response) →
    attemptRequest isSuccess scripts m c acc =
      { body := content
        headers := (response.map NavResponse.headers).getD []
        status := jsOrNat (response.bind NavResponse.status) 200
        statusText := jsOrStr (response.map NavResponse.statusText) "Ok"
        attempts := c + j + 1
        failedAttempts := acc ++ (List.range' c j).map (attemptFailRecord isSuccess scripts) } := by
  intro j
  induction j with
  | zero =>
    intro c acc content response hcm hf hok
    rw [attemptRequest_ok isSuccess scripts m c acc content response (by simpa using hok)]
    simp
  | succ j ih =>
    intro c acc content response hcm hf hok
    have hc : c < m := by omega
    have he := tryFails_error isSuccess (scripts c) (hf c le_rfl (by omega))
    rw [attemptRequest_fail_retry isSuccess scripts m c acc _ he hc]
    have hok' : (runTry isSuccess (scripts (c + 1 + j))).1 = Except.ok (content, response) := by
      have harith : c + 1 + j = c + (j + 1) := by omega
      rw [harith]; exact hok
    rw [ih (c + 1)
      (acc ++ [(⟨errMsg (tryErrorOf isSuccess (scripts c)), c⟩ : FaliedAttempt)]) content response
      (by omega) (fun k hk1 hk2 => hf k (by omega) (by omega)) hok']
    rw [show c + 1 + j + 1 = c + (j + 1) + 1 from by omega]
    simp [List.range'_succ, attemptFailRecord_eq isSuccess scripts c he]

/-! ## Claim theorems -/

/-- Claim C1, amended: once `ensureBrowser` succeeds, `fetch` never throws —
every attempt-level failure (page creation, configuration, actions,
navigation, content read, page close, status classification) is caught and
encoded in the returned Response; a failure thrown by `ensureBrowser`
(browser startup), however, is the one and only failure that propagates out
of `fetch`. -/
theorem claim_C1 (env : FetchEnv) (m retries : Nat) :
    (env.ensureBrowser = Except.ok () →
      fetchModel env m retries =
        Except.ok (attemptRequest env.isSuccess env.scripts m retries [])) ∧
    (∀ e, fetchModel env m retries = Except.error e → env.ensureBrowser = Except.error e) := by
  constructor
  · intro h
    simp [fetchModel, h]
  · intro e h
    cases hb : env.ensureBrowser with
    | error e2 => simp [fetchModel, hb] at h; rw [h]
    | ok v => simp [fetchModel, hb] at h

/-- Witness for C1 at a concrete environment whose browser starts fine. -/
theorem claim_C1_witness :
    closeFailEnv.ensureBrowser = Except.ok () ∧
    fetchModel closeFailEnv 0 0 =
      Except.ok (attemptRequest closeFailEnv.isSuccess closeFailEnv.scripts 0 0 []) :=
  ⟨rfl, (claim_C1 closeFailEnv 0 0).1 rfl⟩

/-- Counterexample to C1 as stated: when `connect` fails during browser
startup, `fetch` rejects with that error instead of returning a Response. -/
theorem claim_C1_counterexample :
    fetchModel badStartEnv 0 0 = Except.error connectErr := rfl

/-- Counterexample to C2 as stated: an attempt that succeeds through reading
the content but whose step-6 `page.close()` throws is recorded as a failed
attempt, the fetch outcome becomes "Request Failed" (with `maxRetries = 0`),
and with `maxRetries = 1` the close failure triggers a retry. -/
theorem claim_C2_counterexample :
    fetchModel closeFailEnv 0 0 = Except.ok closeFailResp ∧
    closeFailResp.failedAttempts.length = 1 ∧
    closeFailResp.statusText = "Request Failed" ∧
    (attemptRequest is2xx (fun _ => closeFailScript) 1 0 []).attempts = 2 := by
  have h1 : (runTry is2xx closeFailScript).1 = Except.error closeErr := rfl
  refine ⟨?_, rfl, rfl, ?_⟩
  · have h2 : fetchModel closeFailEnv 0 0 =
        Except.ok (attemptRequest is2xx (fun _ => closeFailScript) 0 0 []) := by
      simp [fetchModel, closeFailEnv]
    rw [h2, attemptRequest_fail_last is2xx (fun _ => closeFailScript) 0 0 [] closeErr h1 (by omega)]
    rfl
  · rw [attemptRequest_fail_retry is2xx (fun _ => closeFailScript) 1 0 [] closeErr h1 (by omega),
      attemptRequest_fail_last is2xx (fun _ => closeFailScript) 1 1 _ closeErr h1 (by omega)]

/-- Claim C2, amended: a page close is attempted before the attempt returns
control exactly on those exit paths on which the page was created (the
catch-block close is the best-effort, swallowed one); but the success-path
close performed after reading the content (step 6) is not best-effort: an
error thrown there is caught by the retry engine like any other attempt
failure — it surfaces as the attempt's thrown error, is recorded, and can
trigger a retry. -/
theorem claim_C2 :
    (∀ (isSuccess : Nat → Bool) (s : AttemptScript),
      attemptCloseAttempted isSuccess s = (runTry isSuccess s).2.pageCreated) ∧
    (∀ (isSuccess : Nat → Bool) (s : AttemptScript) (e : ThrownError)
        (cont : String) (resp : Option NavResponse),
      s = ⟨Except.ok (), Except.ok (), Except.ok (), Except.ok resp,
           Except.ok (), Except.ok cont, Except.error e⟩ →
      (runTry isSuccess s).1 = Except.error e) := by
  constructor
  · intro isSuccess s
    obtain ⟨np, cf, ba, gt, aa, ct, cl⟩ := s
    cases np <;> cases cf <;> cases ba <;> cases gt <;> cases aa <;> cases ct <;> cases cl <;>
      simp [attemptCloseAttempted, runTry] <;>
      (try split) <;>
      (try (rename_i heq; injection heq with h1 h2; rw [← h2])) <;> simp
  · intro isSuccess s e cont resp hs
    subst hs
    simp [runTry]

/-- Witness for C2 at concrete scripts. -/
theorem claim_C2_witness :
    attemptCloseAttempted is2xx okScript = (runTry is2xx okScript).2.pageCreated ∧
    closeFailScript =
      (⟨Except.ok (), Except.ok (), Except.ok (), Except.ok (some okNav),
        Except.ok (), Except.ok ("body"), Except.error closeErr⟩ : AttemptScript) ∧
    (runTry is2xx closeFailScript).1 = Except.error closeErr :=
  ⟨claim_C2.1 is2xx okScript, rfl,
   claim_C2.2 is2xx closeFailScript closeErr "body" (some okNav) rfl⟩


/-- Claim C3, amended: for every fetch with base retry count 0 whose every
attempt fails, the Response has `attempts = maxRetries + 1`,
`failedAttempts.length = attempts`, `statusText = "Request Failed"`,
`body` = the last error's message (or "Unknown error" when the thrown value
is not an `Error`), and `status` = the status carried by the last error when
that status is nonzero — and 500 when the last error carries no status or
carries the (JS-falsy) status 0. -/
theorem claim_C3 (env : FetchEnv) (m : Nat) (r : HttpResponse)
    (hok : env.ensureBrowser = Except.ok ())
    (hfail : ∀ k, k ≤ m → tryFails env.isSuccess (env.scripts k) = true)
    (hr : fetchModel env m 0 = Except.ok r) :
    r.attempts = m + 1 ∧
    r.failedAttempts.length = r.attempts ∧
    r.status = jsOrNat (tryErrorOf env.isSuccess (env.scripts m)).status 500 ∧
    r.statusText = "Request Failed" ∧
    r.body = errMsg (tryErrorOf env.isSuccess (env.scripts m)) := by
  have h1 : fetchModel env m 0 =
      Except.ok (attemptRequest env.isSuccess env.scripts m 0 []) := by
    simp [fetchModel, hok]
  rw [h1] at hr
  rw [attemptRequest_allFail env.isSuccess env.scripts m m 0 [] (by omega) (fun k h1 h2 => hfail k h2)] at hr
  injection hr with h
  subst h
  refine ⟨rfl, ?_, rfl, rfl, rfl⟩
  simp

/-- Witness for C3: two failing attempts under `maxRetries = 1`. -/
theorem claim_C3_witness :
    fetchModel allFailEnv 1 0 = Except.ok allFailResp ∧
    allFailResp.attempts = 2 ∧
    allFailResp.failedAttempts.length = allFailResp.attempts ∧
    allFailResp.status = 500 ∧
    allFailResp.statusText = "Request Failed" ∧
    allFailResp.body = "nav failed" := by
  have e1 : (runTry allFailEnv.isSuccess (allFailEnv.scripts 0)).1 = Except.error navErr := rfl
  have hf : fetchModel allFailEnv 1 0 = Except.ok allFailResp := by
    have h0 : fetchModel allFailEnv 1 0 =
        Except.ok (attemptRequest allFailEnv.isSuccess allFailEnv.scripts 1 0 []) := by
      simp [fetchModel, allFailEnv]
    rw [h0,
      attemptRequest_fail_retry allFailEnv.isSuccess allFailEnv.scripts 1 0 [] navErr e1 (by omega),
      attemptRequest_fail_last allFailEnv.isSuccess allFailEnv.scripts 1 1 _ navErr rfl (by omega)]
    rfl
  have h := claim_C3 allFailEnv 1 allFailResp rfl (fun k hk => rfl) hf
  exact ⟨hf, h.1, h.2.1, h.2.2.1, h.2.2.2.1, h.2.2.2.2⟩

/-- Counterexample to C3 as stated: a single attempt failing with an error
that carries status 0 yields a Response with status 500, not the carried
status 0 (`error.status || 500` treats 0 as falsy). -/
theorem claim_C3_counterexample :
    fetchModel zeroStatusEnv 0 0 = Except.ok zeroStatusResp ∧
    tryErrorOf zeroStatusEnv.isSuccess (zeroStatusEnv.scripts 0) = zeroStatusErr ∧
    zeroStatusErr.status = some 0 ∧
    zeroStatusResp.status = 500 ∧
    zeroStatusResp.status ≠ 0 := by
  have e1 : (runTry zeroStatusEnv.isSuccess (zeroStatusEnv.scripts 0)).1 =
      Except.error zeroStatusErr := rfl
  have hf : fetchModel zeroStatusEnv 0 0 = Except.ok zeroStatusResp := by
    have h0 : fetchModel zeroStatusEnv 0 0 =
        Except.ok (attemptRequest zeroStatusEnv.isSuccess zeroStatusEnv.scripts 0 0 []) := by
      simp [fetchModel, zeroStatusEnv]
    rw [h0,
      attemptRequest_fail_last zeroStatusEnv.isSuccess zeroStatusEnv.scripts 0 0 [] _ e1 (by omega)]
    rfl
  exact ⟨hf, rfl, rfl, rfl, by decide⟩

/-- Claim C4: for every fetch (base retry count 0) ending on the success
path after `j` failed attempts, the Response has `attempts ≥ 1`,
`attempts = 1 + j`, and exactly those `j` failures listed in order in
`failedAttempts`; its status comes from the successful navigation. -/
theorem claim_C4 (env : FetchEnv) (m j : Nat) (content : String)
    (response : Option NavResponse) (r : HttpResponse)
    (hok : env.ensureBrowser = Except.ok ())
    (hj : j ≤ m)
    (hfail : ∀ k, k < j → tryFails env.isSuccess (env.scripts k) = true)
    (hsucc : (runTry env.isSuccess (env.scripts j)).1 = Except.ok (content, response))
    (hr : fetchModel env m 0 = Except.ok r) :
    1 ≤ r.attempts ∧
    r.attempts = 1 + j ∧
    r.failedAttempts.length = j ∧
    r.failedAttempts = (List.range' 0 j).map (attemptFailRecord env.isSuccess env.scripts) ∧
    r.status = jsOrNat (response.bind NavResponse.status) 200 := by
  have h1 : fetchModel env m 0 =
      Except.ok (attemptRequest env.isSuccess env.scripts m 0 []) := by
    simp [fetchModel, hok]
  rw [h1] at hr
  rw [attemptRequest_succeedsAfter env.isSuccess env.scripts m j 0 [] content response
    (by omega) (fun k hk1 hk2 => hfail k (by omega)) (by simpa using hsucc)] at hr
  injection hr with h
  subst h
  refine ⟨?_, ?_, ?_, ?_, rfl⟩
  · show 1 ≤ 0 + j + 1
    omega
  · show 0 + j + 1 = 1 + j
    omega
  · simp
  · simp

/-- Witness for C4, the spec's scenario: `maxRetries = 2`, two navigation
errors then a 200 — status 200, attempts 3, two failed attempts. -/
theorem claim_C4_witness :
    fetchModel thirdTimeEnv 2 0 = Except.ok thirdTimeResp ∧
    thirdTimeResp.status = 200 ∧
    thirdTimeResp.attempts = 3 ∧
    thirdTimeResp.failedAttempts.length = 2 := by
  have e1 : (runTry thirdTimeEnv.isSuccess (thirdTimeEnv.scripts 0)).1 =
      Except.error navErr := rfl
  have hf : fetchModel thirdTimeEnv 2 0 = Except.ok thirdTimeResp := by
    have h0 : fetchModel thirdTimeEnv 2 0 =
        Except.ok (attemptRequest thirdTimeEnv.isSuccess thirdTimeEnv.scripts 2 0 []) := by
      simp [fetchModel, thirdTimeEnv]
    rw [h0,
      attemptRequest_fail_retry thirdTimeEnv.isSuccess thirdTimeEnv.scripts 2 0 [] navErr e1 (by omega),
      attemptRequest_fail_retry thirdTimeEnv.isSuccess thirdTimeEnv.scripts 2 1 _ navErr rfl (by omega),
      attemptRequest_ok thirdTimeEnv.isSuccess thirdTimeEnv.scripts 2 2 _ "body" (some okNav) rfl]
    rfl
  have h := claim_C4 thirdTimeEnv 2 2 "body" (some okNav) thirdTimeResp rfl (by omega)
    (fun k hk => by interval_cases k <;> rfl) rfl hf
  exact ⟨hf, h.2.2.2.2, h.2.1, h.2.2.1⟩

/-- Claim C5: an attempt whose navigation returns no response object or a
response whose status is undefined is always classified as failure, whatever
the success predicate; with `maxRetries = 0` (and every other operation
succeeding) this produces exactly one failed-attempt record and a Response
with status 500. -/
theorem claim_C5 :
    (∀ (isSuccess : Nat → Bool) (s : AttemptScript),
      (∀ resp, s.goto = Except.ok resp → resp.bind NavResponse.status = none) →
      tryFails isSuccess s = true) ∧
    (∀ (env : FetchEnv) (resp : Option NavResponse) (cont : String) (r : HttpResponse),
      env.ensureBrowser = Except.ok () →
      env.scripts 0 = ⟨Except.ok (), Except.ok (), Except.ok (), Except.ok resp,
        Except.ok (), Except.ok cont, Except.ok ()⟩ →
      resp.bind NavResponse.status = none →
      fetchModel env 0 0 = Except.ok r →
      r.failedAttempts.length = 1 ∧ r.status = 500) := by
  constructor
  · intro isSuccess s h
    obtain ⟨np, cf, ba, gt, aa, ct, cl⟩ := s
    rcases gt with e | resp
    · cases np <;> cases cf <;> cases ba <;> simp [tryFails, runTry]
    · have hnav : resp.bind NavResponse.status = none := h resp rfl
      cases np <;> cases cf <;> cases ba <;> cases aa <;> cases ct <;> cases cl <;>
        simp [tryFails, runTry, classify, hnav]
  · intro env resp cont r hok hs hst hr
    have e1 : (runTry env.isSuccess (env.scripts 0)).1 =
        Except.error (InvalidStatusCodeError 500) := by
      rw [hs]
      simp [runTry, classify, hst]
    have h1 : fetchModel env 0 0 =
        Except.ok (attemptRequest env.isSuccess env.scripts 0 0 []) := by
      simp [fetchModel, hok]
    rw [h1] at hr
    rw [attemptRequest_fail_last env.isSuccess env.scripts 0 0 [] _ e1 (by omega)] at hr
    injection hr with h
    subst h
    exact ⟨rfl, rfl⟩

/-- Witness for C5 at a concrete undefined-status navigation. -/
theorem claim_C5_witness :
    tryFails is2xx undefStatusScript = true ∧
    fetchModel undefStatusEnv 0 0 = Except.ok undefStatusResp ∧
    undefStatusResp.failedAttempts.length = 1 ∧
    undefStatusResp.status = 500 := by
  have hf : fetchModel undefStatusEnv 0 0 = Except.ok undefStatusResp := by
    have e1 : (runTry undefStatusEnv.isSuccess (undefStatusEnv.scripts 0)).1 =
        Except.error (InvalidStatusCodeError 500) := rfl
    have h0 : fetchModel undefStatusEnv 0 0 =
        Except.ok (attemptRequest undefStatusEnv.isSuccess undefStatusEnv.scripts 0 0 []) := by
      simp [fetchModel, undefStatusEnv]
    rw [h0,
      attemptRequest_fail_last undefStatusEnv.isSuccess undefStatusEnv.scripts 0 0 [] _ e1 (by omega)]
    rfl
  have ha := claim_C5.1 is2xx undefStatusScript
    (fun resp h => by injection h with h2; rw [← h2]; rfl)
  have hb := claim_C5.2 undefStatusEnv (some ⟨none, [], "X"⟩) "body" undefStatusResp rfl rfl rfl hf
  exact ⟨ha, hf, hb.1, hb.2⟩


theorem length_filter_bool {α : Type} (p : α → Bool) (l : List α) :
    (l.filter p).length + (l.filter (fun a => ! p a)).length = l.length := by
  induction l with
  | nil => rfl
  | cons a l ih =>
    cases h : p a <;> simp [List.filter_cons, h] <;> omega

/-- Claim C6: `extractActions` is a pure, order-preserving partition — an
absent list yields two empty buckets, each bucket is the order-preserving
filter of the input by its tag, a bare callable carries the default
"afterRequest" tag, a tagged descriptor its own tag; on the spec's example
list the before bucket holds exactly the before-tagged callable and the
after bucket the bare callable and the after-tagged one, in input order. -/
theorem claim_C6 :
    extractActions none = ⟨[], []⟩ ∧
    (∀ l, (extractActions (some l)).before =
        (l.filter (fun a => actionTypeOf a = "beforeRequest")).map actionFuncOf ∧
      (extractActions (some l)).after =
        (l.filter (fun a => ¬ (actionTypeOf a = "beforeRequest"))).map actionFuncOf) ∧
    (∀ f, actionTypeOf (ClientAction.func f) = "afterRequest") ∧
    (∀ t f, actionTypeOf (ClientAction.tagged t f) = t) ∧
    (∀ f g h, extractActions (some [ClientAction.func f,
        ClientAction.tagged ("beforeRequest") g, ClientAction.tagged ("afterRequest") h]) =
      ⟨[g], [f, h]⟩) := by
  refine ⟨rfl, ?_, fun f => rfl, fun t f => rfl, fun f g h => rfl⟩
  intro l
  rw [extractActions_some]
  exact ⟨rfl, rfl⟩

/-- Claim C10: `extractActions` never drops an action — the bucket lengths
sum to the input length — and every tagged descriptor whose tag is anything
other than the exact string "beforeRequest" (including misspelled tags)
lands in the after bucket. -/
theorem claim_C10 :
    (∀ l, ((extractActions (some l)).before).length +
        ((extractActions (some l)).after).length = l.length) ∧
    (∀ l t f, ClientAction.tagged t f ∈ l → t ≠ "beforeRequest" →
      f ∈ (extractActions (some l)).after) := by
  constructor
  · intro l
    rw [extractActions_some]
    simp only [List.length_map, decide_not]
    exact length_filter_bool (fun a => decide (actionTypeOf a = "beforeRequest")) l
  · intro l t f hmem ht
    rw [extractActions_some]
    simp only [List.mem_map]
    refine ⟨ClientAction.tagged t f, ?_, rfl⟩
    rw [List.mem_filter]
    exact ⟨hmem, by simp [actionTypeOf, ht]⟩

/-- Witness for C10: a descriptor with the misspelled tag "beforeRequst"
lands in the after bucket. -/
theorem claim_C10_witness :
    ClientAction.tagged ("beforeRequst") 7 ∈ [ClientAction.tagged ("beforeRequst") 7] ∧
    ("beforeRequst" : String) ≠ "beforeRequest" ∧
    7 ∈ (extractActions (some [ClientAction.tagged ("beforeRequst") 7])).after := by
  refine ⟨List.mem_singleton.mpr rfl, by decide, ?_⟩
  exact claim_C10.2 [ClientAction.tagged ("beforeRequst") 7] "beforeRequst" 7
    (List.mem_singleton.mpr rfl) (by decide)


/-- Claim C7: the client holds at most one live browser handle —
`ensureBrowser` is a no-op when a handle is stored, starts the engine
exactly when none is stored (storing the fresh handle), the connect counter
moves only then, and the stored handle changes only by none-to-some through
`ensureBrowser`/`fetch` or some-to-none through `closeBrowser`/`close`. -/
theorem claim_C7 :
    (∀ (s : ClientState) (b : Nat), s.browser = some b →
      stepOp ClientOp.ensure s = s ∧ stepOp ClientOp.fetchOp s = s) ∧
    (∀ s : ClientState, s.browser = none →
      (stepOp ClientOp.ensure s).browser = some s.nextHandle ∧
      (stepOp ClientOp.ensure s).connects = s.connects + 1) ∧
    (∀ (op : ClientOp) (s : ClientState), (stepOp op s).connects ≠ s.connects →
      s.browser = none ∧ (op = ClientOp.ensure ∨ op = ClientOp.fetchOp) ∧
      (stepOp op s).connects = s.connects + 1) ∧
    (∀ (op : ClientOp) (s : ClientState), (stepOp op s).browser ≠ s.browser →
      (s.browser = none ∧ (op = ClientOp.ensure ∨ op = ClientOp.fetchOp) ∧
        (stepOp op s).browser = some s.nextHandle) ∨
      (s.browser ≠ none ∧ (op = ClientOp.closeBrowserOp ∨ op = ClientOp.closeOp) ∧
        (stepOp op s).browser = none)) := by
  refine ⟨?_, ?_, ?_, ?_⟩
  · intro s b hb
    constructor <;> simp [stepOp, ensureBrowserStep, hb]
  · intro s hb
    constructor <;> simp [stepOp, ensureBrowserStep, initBrowser, hb]
  · intro op s hne
    cases op <;> cases hb : s.browser <;>
      simp_all [stepOp, ensureBrowserStep, initBrowser, closeBrowserStep, closeStep]
  · intro op s hne
    cases op <;> cases hb : s.browser <;>
      simp_all [stepOp, ensureBrowserStep, initBrowser, closeBrowserStep, closeStep]

/-- Witness for C7 at concrete client states. -/
theorem claim_C7_witness :
    (⟨none, 0, 0, 0⟩ : ClientState).browser = none ∧
    (stepOp ClientOp.ensure ⟨none, 0, 0, 0⟩).browser = some 0 ∧
    (stepOp ClientOp.ensure ⟨none, 0, 0, 0⟩).connects = 1 ∧
    (⟨some 5, 6, 1, 0⟩ : ClientState).browser = some 5 ∧
    stepOp ClientOp.ensure ⟨some 5, 6, 1, 0⟩ = ⟨some 5, 6, 1, 0⟩ := by
  have h1 := claim_C7.2.1 ⟨none, 0, 0, 0⟩ rfl
  have h2 := (claim_C7.1 ⟨some 5, 6, 1, 0⟩ 5 rfl).1
  exact ⟨rfl, h1.1, h1.2, rfl, h2⟩

/-- Claim C8: `close()` is idempotent — closing twice equals closing once,
after any close the handle is absent, and closing with no handle stored is a
no-op (no engine close performed, state unchanged). -/
theorem claim_C8 :
    (∀ s : ClientState, stepOp ClientOp.closeOp (stepOp ClientOp.closeOp s) =
      stepOp ClientOp.closeOp s) ∧
    (∀ s : ClientState, (stepOp ClientOp.closeOp s).browser = none) ∧
    (∀ s : ClientState, s.browser = none → stepOp ClientOp.closeOp s = s) := by
  refine ⟨?_, ?_, ?_⟩
  · intro s
    cases hb : s.browser <;> simp [stepOp, closeStep, closeBrowserStep, hb]
  · intro s
    cases hb : s.browser <;> simp [stepOp, closeStep, closeBrowserStep, hb]
  · intro s hb
    simp [stepOp, closeStep, closeBrowserStep, hb]

/-- Witness for C8 at concrete client states. -/
theorem claim_C8_witness :
    stepOp ClientOp.closeOp (⟨none, 5, 1, 1⟩ : ClientState) = ⟨none, 5, 1, 1⟩ ∧
    stepOp ClientOp.closeOp (stepOp ClientOp.closeOp (⟨some 2, 3, 1, 0⟩ : ClientState)) =
      stepOp ClientOp.closeOp ⟨some 2, 3, 1, 0⟩ ∧
    (stepOp ClientOp.closeOp (⟨some 2, 3, 1, 0⟩ : ClientState)).browser = none :=
  ⟨claim_C8.2.2 ⟨none, 5, 1, 1⟩ rfl, claim_C8.1 ⟨some 2, 3, 1, 0⟩, claim_C8.2.1 ⟨some 2, 3, 1, 0⟩⟩


theorem fmGo_length {α : Type} (requests : List α) (f : α → HttpResponse)
    (order : List Nat) :
    ∀ res : List (Option HttpResponse),
      (order.foldl (fmStep requests f) res).length = res.length := by
  induction order with
  | nil => intro res; rfl
  | cons i rest ih =>
    intro res
    simp [List.foldl_cons, ih, fmStep]

theorem fmGo_preserve {α : Type} (requests : List α) (f : α → HttpResponse)
    (order : List Nat) :
    ∀ (res : List (Option HttpResponse)) (j : Nat),
      res[j]? = some ((requests.get? j).map f) →
      (order.foldl (fmStep requests f) res)[j]? = some ((requests.get? j).map f) := by
  induction order with
  | nil => intro res j h; exact h
  | cons i rest ih =>
    intro res j h
    rw [List.foldl_cons]
    apply ih
    by_cases hij : i = j
    · subst hij
      have hlt : i < res.length := by
        by_contra hge
        rw [List.getElem?_eq_none (by omega)] at h
        cases h
      rw [fmStep, List.getElem?_set_self hlt]
    · rw [fmStep, List.getElem?_set_ne hij]
      exact h

theorem fmGo_written {α : Type} (requests : List α) (f : α → HttpResponse)
    (order : List Nat) :
    ∀ (res : List (Option HttpResponse)) (j : Nat), j ∈ order → j < res.length →
      (order.foldl (fmStep requests f) res)[j]? = some ((requests.get? j).map f) := by
  induction order with
  | nil => intro res j hmem; cases hmem
  | cons i rest ih =>
    intro res j hmem hlt
    rw [List.foldl_cons]
    rcases List.mem_cons.mp hmem with heq | hmem2
    · subst heq
      apply fmGo_preserve
      rw [fmStep, List.getElem?_set_self hlt]
    · exact ih (fmStep requests f res i) j hmem2 (by simp [fmStep, hlt])

/-- Claim C9: whatever order the dispatched fetches complete in, as long as
every request index is eventually completed, the collected results are
index-aligned with the requests — slot `i` holds exactly the fetch result
for `requests[i]` — and no slot is left unfilled. -/
theorem claim_C9 {α : Type} (requests : List α) (f : α → HttpResponse)
    (order : List Nat)
    (hcover : ∀ i, i < requests.length → i ∈ order) :
    fetchManyModel requests f order = requests.map (fun r => some (f r)) := by
  apply List.ext_getElem?
  intro n
  by_cases hn : n < requests.length
  · rw [fetchManyModel,
      fmGo_written requests f order (List.replicate requests.length none) n
        (hcover n hn) (by simpa using hn)]
    simp [List.get?_eq_getElem?, List.getElem?_map, List.getElem?_eq_getElem hn]
  · have h1 : (fetchManyModel requests f order).length = requests.length := by
      simp [fetchManyModel, fmGo_length]
    rw [List.getElem?_eq_none (by omega), List.getElem?_eq_none (by simpa using by omega)]

/-- Witness for C9: three requests completing in the order 2, 0, 1. -/
theorem claim_C9_witness :
    fetchManyModel [10, 20, 30] cannedResponse [2, 0, 1] =
      List.map (fun r => some (cannedResponse r)) [10, 20, 30] :=
  claim_C9 [10, 20, 30] cannedResponse [2, 0, 1]
    (fun i hi => by
      have h3 : i < 3 := by simpa using hi
      interval_cases i <;> decide)

end PuppeteerRealBrowser
